import Mathlib

/-!
Verification development for a browser-based GLTF model viewer.

The viewer keeps a scene session: the loaded model's meshes, two parallel
material tables (`originalMaterials` from the loader, `activeMaterials`
currently installed), the selected part, and its recolor color.  This file
embeds that session state machine — load (with its pre-parse teardown and
its parse callbacks), unload, part selection (the click handler together
with the recolor effect it re-triggers), recoloring, camera framing, and
still-image export — and proves the specified properties about it.

Reference identity of JavaScript material objects is modelled by unique
`uuid` fields: every clone allocates fresh uuids from a session counter, so
structural equality of entries coincides with reference equality in all
reachable states.  Colors are 24-bit hex values as naturals.  Disposal of
GPU resources is recorded in ghost lists of disposed material / geometry
uuids.
-/

namespace GltfViewer

/-- Hex color value (24-bit), e.g. 0xFF0000 for the default red. -/
abbrev Color := Nat

/-- A material object: `uuid` models JS reference identity,
`hasColorProp` models `hasOwnProperty('color') && color.isColor`,
`isCommonType` models `instanceof MeshStandardMaterial | MeshBasicMaterial
| MeshPhongMaterial | MeshLambertMaterial | MeshToonMaterial`. -/
structure Material where
  uuid : Nat
  hasColorProp : Bool
  isCommonType : Bool
  color : Color
deriving DecidableEq

/-- A mesh's material slot is a single material or an array of materials
(`THREE.Material | THREE.Material[]`). -/
inductive MatEntry where
  | single : Material → MatEntry
  | array : List Material → MatEntry
deriving DecidableEq

/-- A mesh node of the loaded scene graph. -/
structure Mesh where
  uuid : Nat
  material : MatEntry
  castShadow : Bool
  receiveShadow : Bool
deriving DecidableEq

/-- The scene session state held by the viewer component:
`root` is `modelGroupRef` (the loaded meshes, or none),
`originalMaterials` / `activeMaterials` are the two uuid-keyed maps,
`selectedPart` / `selectedPartColor` are the page-level selection state,
`disposed` / `disposedGeoms` record material and geometry uuids whose
GPU resources were released, and `nextId` is the fresh-uuid counter for
clones. -/
structure Session where
  root : Option (List Mesh)
  originalMaterials : List (Nat × MatEntry)
  activeMaterials : List (Nat × MatEntry)
  selectedPart : Option Nat
  selectedPartColor : Color
  disposed : List Nat
  disposedGeoms : List Nat
  nextId : Nat
deriving DecidableEq

/-- Lookup in a uuid-keyed map (JS `Map.get`). -/
def alookup : List (Nat × MatEntry) → Nat → Option MatEntry
  | [], _ => none
  | p :: rest, k => if p.1 = k then some p.2 else alookup rest k

/-- Insert-or-replace in a uuid-keyed map (JS `Map.set`). -/
def assocSet : List (Nat × MatEntry) → Nat → MatEntry → List (Nat × MatEntry)
  | [], k, v => [(k, v)]
  | p :: rest, k, v => if p.1 = k then (k, v) :: rest else p :: assocSet rest k v

/-- The uuids of the material objects held by an entry. -/
def entryUuids : MatEntry → List Nat
  | .single m => [m.uuid]
  | .array ms => ms.map Material.uuid

/-- The observable color of one material: its color when it exposes a
color property, none otherwise. -/
def matColor (m : Material) : Option Color :=
  if m.hasColorProp then some m.color else none

/-- The observable colors of an entry, component-wise. -/
def entryColors : MatEntry → List (Option Color)
  | .single m => [matColor m]
  | .array ms => ms.map matColor

/-- Model of `cloneAndColorMaterial`: clone `m` (allocating uuid `fresh`), then set
its color to `c` when it exposes a color property, else assign a new color
property when it is one of the common material types, else leave it
unchanged.  Returns the clone and the next fresh uuid. -/
def cloneAndColor (c : Color) (m : Material) (fresh : Nat) : Material × Nat :=
  let cl : Material := { m with uuid := fresh }
  if cl.hasColorProp then ({ cl with color := c }, fresh + 1)
  else if cl.isCommonType then ({ cl with hasColorProp := true, color := c }, fresh + 1)
  else (cl, fresh + 1)

/-- Clone-and-color every material of a list, threading the fresh counter. -/
def cloneList (c : Color) : List Material → Nat → List Material × Nat
  | [], fresh => ([], fresh)
  | m :: ms, fresh =>
    ((cloneAndColor c m fresh).1 :: (cloneList c ms (cloneAndColor c m fresh).2).1,
     (cloneList c ms (cloneAndColor c m fresh).2).2)

/-- Clone-and-color a whole material entry (`Array.isArray` dispatch). -/
def cloneEntry (c : Color) (e : MatEntry) (fresh : Nat) : MatEntry × Nat :=
  match e with
  | .single m => (.single (cloneAndColor c m fresh).1, (cloneAndColor c m fresh).2)
  | .array ms => (.array (cloneList c ms fresh).1, (cloneList c ms fresh).2)

/-- The teardown loop shared by unload and the pre-parse path of a new
load: for every entry of `activeMaterials` that is not reference-identical
to the corresponding `originalMaterials` entry, dispose its materials. -/
def disposeActiveClones (s : Session) : List Nat :=
  s.activeMaterials.foldl
    (fun acc p =>
      if alookup s.originalMaterials p.1 ≠ some p.2 then acc ++ entryUuids p.2
      else acc)
    s.disposed

/-- Geometry uuids released when the model group is removed from the scene. -/
def rootGeomUuids (s : Session) : List Nat :=
  match s.root with
  | none => []
  | some meshes => meshes.map Mesh.uuid

/-- The `modelFile === null` branch of the load effect (the unload path):
dispose the clones among the active materials, remove the model group from
the scene releasing every mesh's geometry, null the root, clear both maps,
and reset the selected part via `onPartSelect(null)`. -/
def unload (s : Session) : Session :=
  { s with
    disposed := disposeActiveClones s
    disposedGeoms := s.disposedGeoms ++ rootGeomUuids s
    root := none
    originalMaterials := []
    activeMaterials := []
    selectedPart := none }

/-- The teardown performed inside `reader.onload` BEFORE `loader.parse` is
called: dispose previous clones, clear both maps, remove and geometry-free
the old model, null the root.  Note this runs whether or not the
subsequent decode succeeds; it does not touch the selected part. -/
def preParseTeardown (s : Session) : Session :=
  { s with
    disposed := disposeActiveClones s
    disposedGeoms := s.disposedGeoms ++ rootGeomUuids s
    root := none
    originalMaterials := []
    activeMaterials := [] }

/-- The `loader.parse` success callback: install the decoded meshes as the
new root, enable shadows on every mesh, record each mesh's supplied
material in both maps under the mesh uuid, and reset the selected part via
`onPartSelect(null)`. -/
def installModel (s : Session) (meshes : List Mesh) : Session :=
  let meshes2 := meshes.map fun m => { m with castShadow := true, receiveShadow := true }
  let mats := meshes2.map fun m => (m.uuid, m.material)
  { s with
    root := some meshes2
    originalMaterials := mats
    activeMaterials := mats
    selectedPart := none }

/-- The whole `reader.onload` path for a new model payload, parametrized by
the decoder's outcome: pre-parse teardown always runs first; on success
the model is installed, on `DecodeError` only an error notification is
shown. -/
def loadModel (s : Session) (result : Except Unit (List Mesh)) : Session :=
  let s1 := preParseTeardown s
  match result with
  | .ok meshes => installModel s1 meshes
  | .error _ => s1

/-- Color probe of `handlePartSelect`: the hex color of the first material
of the array that has a color property; for a single material its color if
it has one; the default 0xFF0000 otherwise (also for an empty array). -/
def partColorOf : MatEntry → Color
  | .single m => if m.hasColorProp then m.color else 0xFF0000
  | .array ms =>
    match ms.find? (fun m => m.hasColorProp) with
    | some m => m.color
    | none => 0xFF0000

/-- Model of `handlePartSelect` from the page component: record the selected part;
when a part is supplied, also set the part-color state from its live
material. -/
def handlePartSelect (s : Session) (part : Option Mesh) : Session :=
  match part with
  | none => { s with selectedPart := none }
  | some m =>
    { s with
      selectedPart := some m.uuid
      selectedPartColor := partColorOf m.material }

/-- The recolor effect (`useEffect [selectedPart, selectedPartColor]`):
if a part is selected, the model is present, and the part's uuid is in
`originalMaterials`, clone the ORIGINAL entry coloring it with the current
part color, dispose the previous active entry when it is neither the true
original nor the new entry, install the new entry on the mesh, and record
it as the active entry. -/
def applyColorEffect (s : Session) : Session :=
  match s.selectedPart with
  | none => s
  | some pid =>
    match s.root with
    | none => s
    | some meshes =>
      match alookup s.originalMaterials pid with
      | none => s
      | some orig =>
        let newMat := (cloneEntry s.selectedPartColor orig s.nextId).1
        let disposed2 :=
          match alookup s.activeMaterials pid with
          | none => s.disposed
          | some prev =>
            if prev ≠ orig ∧ prev ≠ newMat then s.disposed ++ entryUuids prev
            else s.disposed
        let meshes2 := meshes.map fun m =>
          if m.uuid = pid then { m with material := newMat } else m
        { s with
          root := some meshes2
          activeMaterials := assocSet s.activeMaterials pid newMat
          disposed := disposed2
          nextId := (cloneEntry s.selectedPartColor orig s.nextId).2 }

/-- A part-selection event as React executes it: `handlePartSelect` updates
the selection state, and — because `selectedPart` and `selectedPartColor`
are the dependency array of the recolor effect — the effect re-runs when
either of them changed. -/
def selectStep (s : Session) (part : Option Mesh) : Session :=
  let s1 := handlePartSelect s part
  if s1.selectedPart = s.selectedPart ∧ s1.selectedPartColor = s.selectedPartColor
  then s1
  else applyColorEffect s1

/-- The spec-level `setPartColor(identifier, color)` operation: the page
sets the selection to `pid` and the part-color state to `c`, and the
recolor effect runs on the resulting state. -/
def setPartColor (s : Session) (pid : Nat) (c : Color) : Session :=
  applyColorEffect { s with selectedPart := some pid, selectedPartColor := c }

/-- A part-color change from the control panel: the color state is updated
and the recolor effect re-runs when it actually changed. -/
def setColorStep (s : Session) (c : Color) : Session :=
  if c = s.selectedPartColor then s
  else applyColorEffect { s with selectedPartColor := c }

/-- The material re-application loop of `exportToGLB`: every mesh whose
uuid has an active entry gets that entry installed before serializing. -/
def exportApplyStep (s : Session) : Session :=
  match s.root with
  | none => s
  | some meshes =>
    { s with
      root := some (meshes.map fun m =>
        match alookup s.activeMaterials m.uuid with
        | some e => { m with material := e }
        | none => m) }

/-- The session-mutating operations of the viewer. -/
inductive Op where
  | load (result : Except Unit (List Mesh))
  | unload
  | select (part : Option Mesh)
  | setColor (c : Color)
  | exportApply

/-- One step of the session state machine. -/
def step (s : Session) : Op → Session
  | .load r => loadModel s r
  | .unload => unload s
  | .select p => selectStep s p
  | .setColor c => setColorStep s c
  | .exportApply => exportApplyStep s

/-! ### Camera framing (`adjustCameraAndLightsToModel`) -/

/-- An axis-aligned bounding box with rational coordinates. -/
structure Box3 where
  minX : ℚ
  minY : ℚ
  minZ : ℚ
  maxX : ℚ
  maxY : ℚ
  maxZ : ℚ
deriving DecidableEq

/-- Extent along one axis, as in `box.getSize()`. -/
def sizeX (b : Box3) : ℚ := b.maxX - b.minX

/-- Extent along one axis, as in `box.getSize()`. -/
def sizeY (b : Box3) : ℚ := b.maxY - b.minY

/-- Extent along one axis, as in `box.getSize()`. -/
def sizeZ (b : Box3) : ℚ := b.maxZ - b.minZ

/-- Largest bounding-box extent, before the `|| 1` coercion. -/
def maxDimOf (b : Box3) : ℚ := max (sizeX b) (max (sizeY b) (sizeZ b))

/-- The fit scale computed by `adjustCameraAndLightsToModel`:
`maxDim = Math.max(size.x, size.y, size.z) || 1` (a zero maximum is
coerced to 1), `fitScale = 5 / maxDim`, then `fitScale = 1` when
`maxDim === 0` (unreachable after the coercion; the `!Number.isFinite`
disjunct of that guard has no rational counterpart since division by the
nonzero `maxDim` is always finite). -/
def fitScaleOf (b : Box3) : ℚ :=
  let maxDim : ℚ := if maxDimOf b = 0 then 1 else maxDimOf b
  let fs : ℚ := 5 / maxDim
  if maxDim = 0 then 1 else fs

/-- Box center. -/
def centerOf (b : Box3) : ℚ × ℚ × ℚ :=
  ((b.minX + b.maxX) / 2, (b.minY + b.maxY) / 2, (b.minZ + b.maxZ) / 2)

/-- The box of the group after `scale.set(k, k, k)` about the group
origin (the group starts with identity transform), for `k > 0`. -/
def scaledBoxOf (b : Box3) (k : ℚ) : Box3 :=
  ⟨k * b.minX, k * b.minY, k * b.minZ, k * b.maxX, k * b.maxY, k * b.maxZ⟩

/-- Translate a box. -/
def translateBox (b : Box3) (t : ℚ × ℚ × ℚ) : Box3 :=
  ⟨b.minX + t.1, b.minY + t.2.1, b.minZ + t.2.2,
   b.maxX + t.1, b.maxY + t.2.1, b.maxZ + t.2.2⟩

/-- The framing step of `adjustCameraAndLightsToModel` as a function of
the model's bounding box: apply the fit scale, recompute the scaled box,
and subtract its center from the group position.  Returns the applied
scale and the model's world bounding box afterwards. -/
def frameResult (b : Box3) : ℚ × Box3 :=
  let fs := fitScaleOf b
  let sb := scaledBoxOf b fs
  let c := centerOf sb
  (fs, translateBox sb (-c.1, -c.2.1, -c.2.2))

/-! ### Still-image export (`exportToImage`) -/

/-- The renderer state touched by the export: surface size and pixel
density (`getPixelRatio` / `setPixelRatio`). -/
structure RendererState where
  width : ℚ
  height : ℚ
  dpr : ℚ
deriving DecidableEq

/-- The camera state touched by the export. -/
structure CameraState where
  aspect : ℚ
deriving DecidableEq

/-- The viewer pieces `exportToImage` reads: the mount element's client
size, and the possibly-uninitialized renderer, scene, and camera. -/
structure Viewer where
  mountW : ℚ
  mountH : ℚ
  renderer : Option RendererState
  scene : Bool
  camera : Option CameraState
  mount : Bool
deriving DecidableEq

/-- Model of `exportToImage(scale)`: with renderer, scene, camera, and mount all
present, resize the surface to `round(clientSize * scale)`, set the camera
aspect to match, render and capture, then restore the surface to the mount
client size, restore the captured pixel density, restore the captured
aspect, and render again.  Returns the final viewer state and either the
captured image dimensions or an export error when a prerequisite is
missing (in which case the state is untouched). -/
def exportToImage (v : Viewer) (scale : ℚ) : Viewer × Except Unit (ℤ × ℤ) :=
  match v.renderer, v.camera with
  | some r, some cam =>
    if v.scene ∧ v.mount then
      let ow := v.mountW
      let oh := v.mountH
      let tw : ℤ := round (ow * scale)
      let th : ℤ := round (oh * scale)
      let capturedDpr := r.dpr
      let originalAspect := cam.aspect
      let r1 : RendererState := { r with width := (tw : ℚ), height := (th : ℚ) }
      let cam1 : CameraState := { cam with aspect := (tw : ℚ) / (th : ℚ) }
      let r2 : RendererState := { r1 with width := ow, height := oh, dpr := capturedDpr }
      let cam2 : CameraState := { cam1 with aspect := originalAspect }
      ({ v with renderer := some r2, camera := some cam2 }, .ok (tw, th))
    else (v, .error ())
  | _, _ => (v, .error ())

end GltfViewer

namespace GltfViewer

theorem alookup_assocSet (l : List (Nat × MatEntry)) (k j : Nat) (v : MatEntry) :
    alookup (assocSet l k v) j = if k = j then some v else alookup l j := by
  induction l with
  | nil => simp [assocSet, alookup]
  | cons p rest ih =>
    by_cases hp : p.1 = k
    · by_cases hk : k = j
      · simp [assocSet, alookup, hp, hk]
      · have hpj : ¬p.1 = j := fun h => hk (hp.symm.trans h)
        simp [assocSet, alookup, hp, hk, hpj]
    · by_cases hpj : p.1 = j
      · have hk : ¬k = j := fun h => hp (hpj.trans h.symm)
        have hjk : ¬j = k := fun h => hp (hpj.trans h)
        simp [assocSet, alookup, hp, hk, hpj, hjk]
      · simp [assocSet, alookup, hp, hpj, ih]

theorem handlePartSelect_fields (s : Session) (p : Option Mesh) :
    (handlePartSelect s p).root = s.root ∧
    (handlePartSelect s p).originalMaterials = s.originalMaterials ∧
    (handlePartSelect s p).activeMaterials = s.activeMaterials ∧
    (handlePartSelect s p).disposed = s.disposed ∧
    (handlePartSelect s p).disposedGeoms = s.disposedGeoms ∧
    (handlePartSelect s p).nextId = s.nextId := by
  cases p <;> simp [handlePartSelect]

theorem matColor_cloneAndColor (c : Color) (m : Material) (f g : Nat) :
    matColor (cloneAndColor c m f).1 = matColor (cloneAndColor c m g).1 := by
  by_cases h1 : m.hasColorProp <;> by_cases h2 : m.isCommonType <;>
    simp [cloneAndColor, matColor, h1, h2]

theorem cloneList_map_matColor (c : Color) (ms : List Material) (f g : Nat) :
    (cloneList c ms f).1.map matColor = (cloneList c ms g).1.map matColor := by
  induction ms generalizing f g with
  | nil => simp [cloneList]
  | cons m ms ih =>
    simp only [cloneList, List.map_cons, List.cons.injEq]
    exact ⟨matColor_cloneAndColor c m f g, ih _ _⟩

theorem entryColors_cloneEntry (c : Color) (e : MatEntry) (f g : Nat) :
    entryColors (cloneEntry c e f).1 = entryColors (cloneEntry c e g).1 := by
  cases e with
  | single m => simp [cloneEntry, entryColors, matColor_cloneAndColor c m f g]
  | array ms => simp [cloneEntry, entryColors, cloneList_map_matColor c ms f g]

theorem applyColorEffect_eq (s : Session) (pid : Nat) (meshes : List Mesh) (orig : MatEntry)
    (hsel : s.selectedPart = some pid) (hroot : s.root = some meshes)
    (horig : alookup s.originalMaterials pid = some orig) :
    applyColorEffect s = { s with
      root := some (meshes.map fun m =>
        if m.uuid = pid then { m with material := (cloneEntry s.selectedPartColor orig s.nextId).1 }
        else m)
      activeMaterials := assocSet s.activeMaterials pid (cloneEntry s.selectedPartColor orig s.nextId).1
      disposed :=
        match alookup s.activeMaterials pid with
        | none => s.disposed
        | some prev =>
          if prev ≠ orig ∧ prev ≠ (cloneEntry s.selectedPartColor orig s.nextId).1
          then s.disposed ++ entryUuids prev
          else s.disposed
      nextId := (cloneEntry s.selectedPartColor orig s.nextId).2 } := by
  unfold applyColorEffect
  simp only [hsel, hroot, horig]

theorem applyColorEffect_noop_of_unknown (s : Session) (pid : Nat)
    (hsel : s.selectedPart = some pid)
    (horig : alookup s.originalMaterials pid = none) :
    applyColorEffect s = s := by
  unfold applyColorEffect
  cases hr : s.root with
  | none => simp only [hsel, hr]
  | some meshes => simp only [hsel, hr, horig]

theorem applyColorEffect_originalMaterials (s : Session) :
    (applyColorEffect s).originalMaterials = s.originalMaterials := by
  cases hs : s.selectedPart with
  | none => simp [applyColorEffect, hs]
  | some pid =>
    cases hr : s.root with
    | none => simp [applyColorEffect, hs, hr]
    | some meshes =>
      cases ho : alookup s.originalMaterials pid with
      | none => simp [applyColorEffect, hs, hr, ho]
      | some orig => simp [applyColorEffect, hs, hr, ho]

theorem setPartColor_originalMaterials (s : Session) (pid : Nat) (c : Color) :
    (setPartColor s pid c).originalMaterials = s.originalMaterials := by
  unfold setPartColor
  rw [applyColorEffect_originalMaterials]

theorem setPartColor_root_some (s : Session) (pid : Nat) (c : Color) (meshes : List Mesh)
    (hroot : s.root = some meshes) :
    ∃ ms, (setPartColor s pid c).root = some ms := by
  unfold setPartColor
  cases ho : alookup s.originalMaterials pid with
  | none =>
    rw [applyColorEffect_noop_of_unknown
      { s with selectedPart := some pid, selectedPartColor := c } pid rfl ho]
    exact ⟨meshes, hroot⟩
  | some orig =>
    rw [applyColorEffect_eq
      { s with selectedPart := some pid, selectedPartColor := c } pid meshes orig rfl hroot ho]
    exact ⟨_, rfl⟩

theorem setPartColor_active_lookup (s : Session) (pid : Nat) (c : Color)
    (meshes : List Mesh) (orig : MatEntry)
    (hroot : s.root = some meshes)
    (horig : alookup s.originalMaterials pid = some orig) :
    alookup (setPartColor s pid c).activeMaterials pid
      = some (cloneEntry c orig s.nextId).1 := by
  unfold setPartColor
  rw [applyColorEffect_eq
    { s with selectedPart := some pid, selectedPartColor := c } pid meshes orig rfl hroot horig]
  simp [alookup_assocSet]

theorem setPartColor_colors (s : Session) (pid : Nat) (c : Color)
    (meshes : List Mesh) (orig : MatEntry)
    (hroot : s.root = some meshes)
    (horig : alookup s.originalMaterials pid = some orig) :
    (alookup (setPartColor s pid c).activeMaterials pid).map entryColors
      = some (entryColors (cloneEntry c orig 0).1) := by
  rw [setPartColor_active_lookup s pid c meshes orig hroot horig]
  simp [entryColors_cloneEntry c orig s.nextId 0]

end GltfViewer

namespace GltfViewer

theorem applyColorEffect_noop_none (s : Session) (hsel : s.selectedPart = none) :
    applyColorEffect s = s := by
  unfold applyColorEffect
  simp only [hsel]

theorem applyColorEffect_noop_noroot (s : Session) (hroot : s.root = none) :
    applyColorEffect s = s := by
  unfold applyColorEffect
  cases hs : s.selectedPart with
  | none => simp only
  | some pid => simp only [hroot]

/-- The active entry for a part is the original entry itself or a clone the
recolor effect could have produced from it. -/
def DerivedFrom (e o : MatEntry) : Prop :=
  e = o ∨ ∃ c f, e = (cloneEntry c o f).1

/-- The session invariant of the spec: every active entry has a
corresponding original entry, and is reference-identical to it or a clone
derived from it. -/
def SessionInv (s : Session) : Prop :=
  ∀ pid e, alookup s.activeMaterials pid = some e →
    ∃ o, alookup s.originalMaterials pid = some o ∧ DerivedFrom e o

theorem sessionInv_of_maps (s t : Session)
    (ha : t.activeMaterials = s.activeMaterials)
    (ho : t.originalMaterials = s.originalMaterials)
    (h : SessionInv s) : SessionInv t := by
  intro pid e he
  rw [ha] at he
  obtain ⟨o, ho2, hd⟩ := h pid e he
  exact ⟨o, ho ▸ ho2, hd⟩

theorem sessionInv_empty (s : Session) (ha : s.activeMaterials = []) : SessionInv s := by
  intro pid e he
  rw [ha] at he
  simp [alookup] at he

theorem sessionInv_self (s : Session)
    (h : s.activeMaterials = s.originalMaterials) : SessionInv s := by
  intro pid e he
  refine ⟨e, ?_, Or.inl rfl⟩
  rw [← h]
  exact he

theorem sessionInv_applyColorEffect (s : Session) (h : SessionInv s) :
    SessionInv (applyColorEffect s) := by
  cases hs : s.selectedPart with
  | none => rw [applyColorEffect_noop_none s hs]; exact h
  | some pid =>
    cases hr : s.root with
    | none => rw [applyColorEffect_noop_noroot s hr]; exact h
    | some meshes =>
      cases ho : alookup s.originalMaterials pid with
      | none => rw [applyColorEffect_noop_of_unknown s pid hs ho]; exact h
      | some orig =>
        rw [applyColorEffect_eq s pid meshes orig hs hr ho]
        intro pid2 e he
        simp only at he ⊢
        rw [alookup_assocSet] at he
        by_cases hp : pid = pid2
        · subst hp
          rw [if_pos rfl] at he
          obtain rfl : (cloneEntry s.selectedPartColor orig s.nextId).1 = e :=
            Option.some.injEq _ _ ▸ he
          exact ⟨orig, ho, Or.inr ⟨s.selectedPartColor, s.nextId, rfl⟩⟩
        · rw [if_neg hp] at he
          exact h pid2 e he

theorem sessionInv_loadModel (s : Session) (r : Except Unit (List Mesh)) :
    SessionInv (loadModel s r) := by
  cases r with
  | error e => exact sessionInv_empty _ rfl
  | ok meshes => exact sessionInv_self _ rfl

theorem sessionInv_step (s : Session) (op : Op) (h : SessionInv s) :
    SessionInv (step s op) := by
  cases op with
  | load r => exact sessionInv_loadModel s r
  | unload => exact sessionInv_empty _ rfl
  | select p =>
    have h1 : SessionInv (handlePartSelect s p) :=
      sessionInv_of_maps s _ (handlePartSelect_fields s p).2.2.1
        (handlePartSelect_fields s p).2.1 h
    simp only [step]
    by_cases hc : (handlePartSelect s p).selectedPart = s.selectedPart ∧
        (handlePartSelect s p).selectedPartColor = s.selectedPartColor
    · simpa [selectStep, hc] using h1
    · simpa [selectStep, hc] using sessionInv_applyColorEffect _ h1
  | setColor c =>
    simp only [step]
    by_cases hc : c = s.selectedPartColor
    · simpa [setColorStep, hc] using h
    · simpa [setColorStep, hc] using
        sessionInv_applyColorEffect { s with selectedPartColor := c }
          (sessionInv_of_maps s { s with selectedPartColor := c } rfl rfl h)
  | exportApply =>
    simp only [step]
    cases hr : s.root with
    | none => simpa [exportApplyStep, hr] using h
    | some meshes =>
      simpa [exportApplyStep, hr] using sessionInv_of_maps s
        { s with root := some (meshes.map fun m =>
            match alookup s.activeMaterials m.uuid with
            | some e => { m with material := e }
            | none => m) } rfl rfl h

/-- All material uuids of an entry are below `n` (they predate the fresh
counter value `n`). -/
def UuidsBelow (e : MatEntry) (n : Nat) : Prop :=
  ∀ u ∈ entryUuids e, u < n

theorem cloneAndColor_uuid (c : Color) (m : Material) (f : Nat) :
    (cloneAndColor c m f).1.uuid = f := by
  by_cases h1 : m.hasColorProp <;> by_cases h2 : m.isCommonType <;>
    simp [cloneAndColor, h1, h2]

theorem cloneEntry_ne_of_below (c : Color) (orig prev : MatEntry) (n : Nat)
    (hb : UuidsBelow prev n) (hne : prev ≠ orig) :
    prev ≠ (cloneEntry c orig n).1 := by
  intro hEq
  cases orig with
  | single m =>
    have h2 : prev = .single (cloneAndColor c m n).1 := by simpa [cloneEntry] using hEq
    have hmem : (cloneAndColor c m n).1.uuid ∈ entryUuids prev := by
      rw [h2]; simp [entryUuids]
    have hlt := hb _ hmem
    rw [cloneAndColor_uuid] at hlt
    exact absurd hlt (lt_irrefl n)
  | array ms =>
    cases ms with
    | nil => exact hne (by simpa [cloneEntry, cloneList] using hEq)
    | cons m ms2 =>
      have h2 : prev = .array ((cloneAndColor c m n).1
          :: (cloneList c ms2 (cloneAndColor c m n).2).1) := by
        simpa [cloneEntry, cloneList] using hEq
      have hmem : (cloneAndColor c m n).1.uuid ∈ entryUuids prev := by
        rw [h2]; simp [entryUuids]
      have hlt := hb _ hmem
      rw [cloneAndColor_uuid] at hlt
      exact absurd hlt (lt_irrefl n)

end GltfViewer

namespace GltfViewer

theorem applyColorEffect_selState (s : Session) :
    (applyColorEffect s).selectedPart = s.selectedPart ∧
    (applyColorEffect s).selectedPartColor = s.selectedPartColor := by
  cases hs : s.selectedPart with
  | none => rw [applyColorEffect_noop_none s hs]; exact ⟨hs, rfl⟩
  | some pid =>
    cases hr : s.root with
    | none => rw [applyColorEffect_noop_noroot s hr]; exact ⟨hs, rfl⟩
    | some meshes =>
      cases ho : alookup s.originalMaterials pid with
      | none => rw [applyColorEffect_noop_of_unknown s pid hs ho]; exact ⟨hs, rfl⟩
      | some orig => rw [applyColorEffect_eq s pid meshes orig hs hr ho]; exact ⟨hs, rfl⟩

/-- The component list of a material slot: the one material, or the
materials of the array. -/
def entryComponents : MatEntry → List Material
  | .single m => [m]
  | .array ms => ms

/-- The part color as the claim describes it: the hex color of the first
material component exposing a color property, or the default 0xFF0000. -/
def claimPartColor (e : MatEntry) : Color :=
  match (entryComponents e).find? (fun m => m.hasColorProp) with
  | some m => m.color
  | none => 0xFF0000

theorem partColorOf_eq_claim (e : MatEntry) : partColorOf e = claimPartColor e := by
  cases e with
  | single m =>
    by_cases h : m.hasColorProp <;>
      simp [partColorOf, claimPartColor, entryComponents, List.find?, h]
  | array ms => simp [partColorOf, claimPartColor, entryComponents]

/-- Observable colors of the active entry for a part, if any. -/
def activeColorsAt (s : Session) (pid : Nat) : Option (List (Option Color)) :=
  (alookup s.activeMaterials pid).map entryColors

end GltfViewer

namespace GltfViewer

/-! ### Concrete states used by counterexamples and witnesses -/

/-- A green standard material as supplied by the loader. -/
def exMat : Material := ⟨100, true, true, 0x00FF00⟩

/-- A mesh carrying `exMat` as a single material. -/
def exMesh : Mesh := ⟨1, .single exMat, true, true⟩

/-- A session immediately after successfully loading the one-mesh model. -/
def exS : Session :=
  { root := some [exMesh]
    originalMaterials := [(1, .single exMat)]
    activeMaterials := [(1, .single exMat)]
    selectedPart := none
    selectedPartColor := 0xFF0000
    disposed := []
    disposedGeoms := []
    nextId := 200 }

/-- A red clone of `exMat`, as a previous recolor would have produced. -/
def exClone : Material := ⟨150, true, true, 0xFF0000⟩

/-- A session in which part 1 has already been recolored: the active entry
is the clone, the original entry is untouched. -/
def exS2 : Session :=
  { root := some [{ exMesh with material := .single exClone }]
    originalMaterials := [(1, .single exMat)]
    activeMaterials := [(1, .single exClone)]
    selectedPart := some 1
    selectedPartColor := 0xFF0000
    disposed := []
    disposedGeoms := []
    nextId := 200 }

/-- A fully initialized viewer with an 800x600 mount, matching renderer
surface, pixel density 2, and camera aspect 4/3. -/
def exViewer : Viewer :=
  { mountW := 800
    mountH := 600
    renderer := some ⟨800, 600, 2⟩
    scene := true
    camera := some ⟨4 / 3⟩
    mount := true }

end GltfViewer

namespace GltfViewer

/-- C1 counterexample: with a model loaded, a failing decode does NOT leave
the session in its prior state — the pre-parse teardown has already cleared
both material maps and removed the prior model from the scene. -/
theorem claim_C1_counterexample :
    exS.root ≠ none ∧ exS.originalMaterials ≠ [] ∧ exS.activeMaterials ≠ [] ∧
    (loadModel exS (.error ())).root = none ∧
    (loadModel exS (.error ())).originalMaterials = [] ∧
    (loadModel exS (.error ())).activeMaterials = [] := by
  decide

/-- C1 (amended): decoding a new payload is not atomic.  The load path
tears the previous session down before parsing, so a `DecodeError` leaves
the session equal to the pre-parse teardown state: root absent, both
material maps empty, previous clones disposed; only `selectedPart` keeps
its prior value. -/
theorem claim_C1_decode_teardown (s : Session) :
    loadModel s (.error ()) = preParseTeardown s ∧
    (loadModel s (.error ())).root = none ∧
    (loadModel s (.error ())).originalMaterials = [] ∧
    (loadModel s (.error ())).activeMaterials = [] ∧
    (loadModel s (.error ())).selectedPart = s.selectedPart :=
  ⟨rfl, rfl, rfl, rfl, rfl⟩

/-- C2 counterexample: for a degenerate (zero-extent) bounding box the
applied scale is 5, not the claimed fallback of 1, because `maxDim || 1`
coerces the zero maximum to 1 before the division. -/
theorem claim_C2_counterexample :
    maxDimOf ⟨10, 10, 10, 10, 10, 10⟩ = 0 ∧
    (frameResult ⟨10, 10, 10, 10, 10, 10⟩).1 = 5 ∧
    (frameResult ⟨10, 10, 10, 10, 10, 10⟩).1 ≠ 1 := by
  norm_num [frameResult, fitScaleOf, maxDimOf, sizeX, sizeY, sizeZ]

/-- C2 (amended): the framing step is a pure function of the bounding box,
with scale `5 / maxDim` for a box of positive largest extent, scale 5 (not
1) for a degenerate box, and the 2x2x2 cube centered at (10,10,10) is
rescaled by 5/2 and recentered so its bounding-box center is the origin. -/
theorem claim_C2_framing :
    (∀ b : Box3, 0 < maxDimOf b → (frameResult b).1 = 5 / maxDimOf b) ∧
    (∀ b : Box3, maxDimOf b = 0 → (frameResult b).1 = 5) ∧
    (frameResult ⟨9, 9, 9, 11, 11, 11⟩).1 = 5 / 2 ∧
    centerOf (frameResult ⟨9, 9, 9, 11, 11, 11⟩).2 = (0, 0, 0) := by
  refine ⟨?_, ?_, ?_, ?_⟩
  · intro b h
    simp [frameResult, fitScaleOf, h.ne']
  · intro b h
    norm_num [frameResult, fitScaleOf, h]
  · norm_num [frameResult, fitScaleOf, maxDimOf, sizeX, sizeY, sizeZ]
  · norm_num [frameResult, fitScaleOf, maxDimOf, sizeX, sizeY, sizeZ, centerOf,
      scaledBoxOf, translateBox, Prod.ext_iff]

/-- C2 witness: the framing theorem applied to a 4x2x1 box (scale becomes
5/4) and to a degenerate point box (scale becomes 5). -/
theorem claim_C2_witness :
    (0 < maxDimOf ⟨0, 0, 0, 4, 2, 1⟩ ∧
      (frameResult ⟨0, 0, 0, 4, 2, 1⟩).1 = 5 / maxDimOf ⟨0, 0, 0, 4, 2, 1⟩) ∧
    (maxDimOf ⟨3, 3, 3, 3, 3, 3⟩ = 0 ∧ (frameResult ⟨3, 3, 3, 3, 3, 3⟩).1 = 5) :=
  ⟨⟨by norm_num [maxDimOf, sizeX, sizeY, sizeZ],
    claim_C2_framing.1 _ (by norm_num [maxDimOf, sizeX, sizeY, sizeZ])⟩,
   ⟨by norm_num [maxDimOf, sizeX, sizeY, sizeZ],
    claim_C2_framing.2.1 _ (by norm_num [maxDimOf, sizeX, sizeY, sizeZ])⟩⟩

/-- C3 counterexample: a part-selection event is not free of material side
effects — selecting the mesh re-runs the recolor effect (its dependency
array holds `selectedPart` and `selectedPartColor`), which clones the
original material and replaces the active entry, bumping the fresh uuid
counter. -/
theorem claim_C3_counterexample :
    (selectStep exS (some exMesh)).activeMaterials ≠ exS.activeMaterials ∧
    (selectStep exS (some exMesh)).nextId ≠ exS.nextId := by
  decide

/-- C3 (amended): `handlePartSelect` itself only records the selected part
and its current color — it touches neither the scene graph, the material
maps, the disposal lists, nor the fresh counter; but the selection change
immediately re-triggers the recolor effect, so a full selection event does
clone and install a material (see the counterexample). -/
theorem claim_C3_handler_pure (s : Session) (p : Option Mesh) :
    (handlePartSelect s p).root = s.root ∧
    (handlePartSelect s p).originalMaterials = s.originalMaterials ∧
    (handlePartSelect s p).activeMaterials = s.activeMaterials ∧
    (handlePartSelect s p).disposed = s.disposed ∧
    (handlePartSelect s p).disposedGeoms = s.disposedGeoms ∧
    (handlePartSelect s p).nextId = s.nextId :=
  handlePartSelect_fields s p

/-- C6: unload empties both material maps, removes the root, and clears the
selected part, for any session; and unload is idempotent. -/
theorem claim_C6_unload :
    (∀ s : Session, (unload s).originalMaterials = [] ∧
      (unload s).activeMaterials = [] ∧
      (unload s).root = none ∧ (unload s).selectedPart = none) ∧
    (∀ s : Session, unload (unload s) = unload s) := by
  refine ⟨fun s => ⟨rfl, rfl, rfl, rfl⟩, fun s => ?_⟩
  cases s
  simp [unload, disposeActiveClones, rootGeomUuids]

/-- C7: recoloring an identifier with no entry in `originalMaterials` is a
silent no-op (the recolor effect is total, so no exception): both maps,
the scene root, both disposal lists, and the fresh counter are unchanged. -/
theorem claim_C7_unknown_id_noop (s : Session) (pid : Nat) (c : Color)
    (horig : alookup s.originalMaterials pid = none) :
    (setPartColor s pid c).activeMaterials = s.activeMaterials ∧
    (setPartColor s pid c).originalMaterials = s.originalMaterials ∧
    (setPartColor s pid c).root = s.root ∧
    (setPartColor s pid c).disposed = s.disposed ∧
    (setPartColor s pid c).disposedGeoms = s.disposedGeoms ∧
    (setPartColor s pid c).nextId = s.nextId := by
  unfold setPartColor
  rw [applyColorEffect_noop_of_unknown
    { s with selectedPart := some pid, selectedPartColor := c } pid rfl horig]
  exact ⟨rfl, rfl, rfl, rfl, rfl, rfl⟩

/-- C7 witness: recoloring the unknown identifier 99 in the loaded example
session changes no session state. -/
theorem claim_C7_witness :
    alookup exS.originalMaterials 99 = none ∧
    (setPartColor exS 99 0x123456).activeMaterials = exS.activeMaterials :=
  ⟨by decide, (claim_C7_unknown_id_noop exS 99 0x123456 (by decide)).1⟩

end GltfViewer

namespace GltfViewer

/-- C4: recoloring always clones from the pristine original entry, so for
a part present in `originalMaterials`, recoloring to `c1` and then to `c2`
leaves the active entry with the same colors as recoloring directly to
`c2`, and recoloring twice with the same color leaves the same colors as
recoloring once. -/
theorem claim_C4_recolor_from_original (s : Session) (pid : Nat) (c1 c2 : Color)
    (meshes : List Mesh) (orig : MatEntry)
    (hroot : s.root = some meshes)
    (horig : alookup s.originalMaterials pid = some orig) :
    activeColorsAt (setPartColor (setPartColor s pid c1) pid c2) pid
      = activeColorsAt (setPartColor s pid c2) pid ∧
    activeColorsAt (setPartColor (setPartColor s pid c1) pid c1) pid
      = activeColorsAt (setPartColor s pid c1) pid := by
  have key : ∀ d : Color,
      activeColorsAt (setPartColor (setPartColor s pid c1) pid d) pid
        = activeColorsAt (setPartColor s pid d) pid := by
    intro d
    obtain ⟨ms1, hroot1⟩ := setPartColor_root_some s pid c1 meshes hroot
    have horig1 : alookup (setPartColor s pid c1).originalMaterials pid = some orig := by
      rw [setPartColor_originalMaterials]
      exact horig
    unfold activeColorsAt
    rw [setPartColor_colors _ pid d ms1 orig hroot1 horig1,
        setPartColor_colors s pid d meshes orig hroot horig]
  exact ⟨key c2, key c1⟩

/-- C4 witness: in the loaded example session, red-then-blue recoloring of
part 1 yields the same active colors as recoloring directly to blue. -/
theorem claim_C4_witness :
    exS.root = some [exMesh] ∧
    alookup exS.originalMaterials 1 = some (.single exMat) ∧
    activeColorsAt (setPartColor (setPartColor exS 1 0xFF0000) 1 0x0000FF) 1
      = activeColorsAt (setPartColor exS 1 0x0000FF) 1 :=
  ⟨rfl, by decide,
   (claim_C4_recolor_from_original exS 1 0xFF0000 0x0000FF [exMesh]
     (.single exMat) rfl (by decide)).1⟩

/-- C5: immediately after a successful load the two material maps are
identical (each active entry is reference-identical to its original), any
load establishes the session invariant, and every session operation
preserves it: every active entry has an original entry and is either that
original or a clone derived from it. -/
theorem claim_C5_invariant :
    (∀ (s : Session) (meshes : List Mesh),
      (loadModel s (.ok meshes)).activeMaterials
        = (loadModel s (.ok meshes)).originalMaterials) ∧
    (∀ (s : Session) (r : Except Unit (List Mesh)), SessionInv (loadModel s r)) ∧
    (∀ (s : Session) (op : Op), SessionInv s → SessionInv (step s op)) :=
  ⟨fun _ _ => rfl, sessionInv_loadModel, sessionInv_step⟩

/-- C5 witness: the invariant theorem applied to the loaded example
session (whose maps are identical, so the invariant holds) and a selection
step. -/
theorem claim_C5_witness : SessionInv (step exS (Op.select (some exMesh))) :=
  claim_C5_invariant.2.2 exS (Op.select (some exMesh)) (sessionInv_self exS rfl)

/-- C8: when a recolor replaces the active entry of a part, the previous
active entry's materials are disposed exactly when that entry is not
reference-identical to the true original (its uuids all predate the fresh
counter, so it can never be the newly made clone); and under the session's
uuid discipline the original's materials are never disposed by the
recolor. -/
theorem claim_C8_dispose_guard (s : Session) (pid : Nat) (c : Color)
    (meshes : List Mesh) (orig prev : MatEntry)
    (hroot : s.root = some meshes)
    (horig : alookup s.originalMaterials pid = some orig)
    (hprev : alookup s.activeMaterials pid = some prev)
    (hb : UuidsBelow prev s.nextId)
    (hdisj : prev = orig ∨ ∀ u ∈ entryUuids orig, u ∉ entryUuids prev) :
    (setPartColor s pid c).disposed
      = s.disposed ++ (if prev = orig then [] else entryUuids prev) ∧
    (∀ u ∈ entryUuids orig, u ∉ s.disposed → u ∉ (setPartColor s pid c).disposed) := by
  have hmain : (setPartColor s pid c).disposed
      = s.disposed ++ (if prev = orig then [] else entryUuids prev) := by
    unfold setPartColor
    rw [applyColorEffect_eq
      { s with selectedPart := some pid, selectedPartColor := c } pid meshes orig rfl hroot horig]
    simp only [hprev]
    by_cases hpo : prev = orig
    · simp [hpo]
    · have hnn : prev ≠ (cloneEntry c orig s.nextId).1 :=
        cloneEntry_ne_of_below c orig prev s.nextId hb hpo
      simp [hpo, hnn]
  refine ⟨hmain, ?_⟩
  intro u hu hnd
  rw [hmain]
  intro hmem
  rcases List.mem_append.mp hmem with h1 | h2
  · exact hnd h1
  · by_cases hpo : prev = orig
    · simp [hpo] at h2
    · rw [if_neg hpo] at h2
      rcases hdisj with h | h
      · exact hpo h
      · exact h u hu h2

/-- C8 witness: in the already-recolored example session the previous
active clone (uuid 150) is disposed by the next recolor, while the
original (uuid 100) is not. -/
theorem claim_C8_witness :
    alookup exS2.originalMaterials 1 = some (.single exMat) ∧
    alookup exS2.activeMaterials 1 = some (.single exClone) ∧
    UuidsBelow (.single exClone) exS2.nextId ∧
    (setPartColor exS2 1 0x0000FF).disposed
      = exS2.disposed
        ++ (if (MatEntry.single exClone) = (.single exMat) then []
            else entryUuids (.single exClone)) :=
  ⟨by decide, by decide, by unfold UuidsBelow; decide,
   (claim_C8_dispose_guard exS2 1 0x0000FF _ (.single exMat) (.single exClone)
     rfl (by decide) (by decide) (by unfold UuidsBelow; decide) (Or.inr (by decide))).1⟩

end GltfViewer

namespace GltfViewer

/-- C9: exporting a still image restores the renderer surface size, pixel
density, and camera aspect ratio to their exact pre-export values (given
the renderer surface matches the mount's client size, as the resize
handler maintains), and fails with an export error — leaving the state
untouched — when the renderer, scene, or camera is not initialized. -/
theorem claim_C9_export_restores :
    (∀ (v : Viewer) (k : ℚ),
      (v.renderer = none ∨ v.scene = false ∨ v.camera = none) →
      exportToImage v k = (v, .error ())) ∧
    (∀ (v : Viewer) (k : ℚ) (r : RendererState) (cam : CameraState),
      v.renderer = some r → v.camera = some cam → v.scene = true → v.mount = true →
      r.width = v.mountW → r.height = v.mountH →
      (exportToImage v k).1 = v) := by
  constructor
  · intro v k h
    cases hr : v.renderer with
    | none => cases hc : v.camera <;> simp [exportToImage, hr, hc]
    | some r =>
      cases hc : v.camera with
      | none => simp [exportToImage, hr, hc]
      | some cam =>
        rcases h with h | h | h
        · rw [hr] at h; cases h
        · simp [exportToImage, hr, hc, h]
        · rw [hc] at h; cases h
  · intro v k r cam hr hc hs hm hw hh
    cases v with
    | mk mw mh rend sc camv mnt =>
      simp only at hr hc hs hm hw hh
      subst hr hc hs hm
      cases r with
      | mk rw2 rh rd =>
        simp only at hw hh
        subst hw hh
        cases cam with
        | mk ca => simp [exportToImage]

/-- C9 witness: exporting at scale 3 from the fully initialized example
viewer leaves the viewer state exactly as before. -/
theorem claim_C9_witness :
    exViewer.renderer = some ⟨800, 600, 2⟩ ∧ exViewer.camera = some ⟨4 / 3⟩ ∧
    (exportToImage exViewer 3).1 = exViewer :=
  ⟨rfl, rfl,
   claim_C9_export_restores.2 exViewer 3 ⟨800, 600, 2⟩ ⟨4 / 3⟩ rfl rfl rfl rfl rfl rfl⟩

/-- C10: selecting a part via a canvas click sets the session's part-color
state from the selected mesh's live material — the hex color of the first
material component exposing a color property, or the default 0xFF0000 when
none does — and the recolor that the selection triggers installs an active
entry cloned from the original and colored with exactly that value. -/
theorem claim_C10_select_color (s : Session) (m : Mesh)
    (meshes : List Mesh) (orig : MatEntry)
    (hroot : s.root = some meshes)
    (horig : alookup s.originalMaterials m.uuid = some orig)
    (hnew : s.selectedPart ≠ some m.uuid) :
    (selectStep s (some m)).selectedPartColor = claimPartColor m.material ∧
    alookup (selectStep s (some m)).activeMaterials m.uuid
      = some (cloneEntry (claimPartColor m.material) orig s.nextId).1 := by
  have hstep : selectStep s (some m)
      = applyColorEffect (handlePartSelect s (some m)) := by
    unfold selectStep
    rw [if_neg]
    intro hand
    apply hnew
    rw [← hand.1]
    simp [handlePartSelect]
  have hsel1 : (handlePartSelect s (some m)).selectedPart = some m.uuid := by
    simp [handlePartSelect]
  have hroot1 : (handlePartSelect s (some m)).root = some meshes := by
    simp [handlePartSelect, hroot]
  have horig1 : alookup (handlePartSelect s (some m)).originalMaterials m.uuid
      = some orig := by
    simpa [handlePartSelect] using horig
  have hcol1 : (handlePartSelect s (some m)).selectedPartColor
      = partColorOf m.material := by
    simp [handlePartSelect]
  constructor
  · rw [hstep, (applyColorEffect_selState _).2, hcol1, partColorOf_eq_claim]
  · rw [hstep, applyColorEffect_eq _ m.uuid meshes orig hsel1 hroot1 horig1]
    simp only [alookup_assocSet, if_pos rfl]
    rw [hcol1, partColorOf_eq_claim]
    simp [handlePartSelect]

/-- C10 witness: clicking the example mesh (live material green with a
color property) sets the part color to green, 0x00FF00. -/
theorem claim_C10_witness :
    exS.selectedPart ≠ some exMesh.uuid ∧
    (selectStep exS (some exMesh)).selectedPartColor = claimPartColor exMesh.material ∧
    claimPartColor exMesh.material = 0x00FF00 :=
  ⟨by decide,
   (claim_C10_select_color exS exMesh [exMesh] (.single exMat)
     rfl (by decide) (by decide)).1,
   by decide⟩

end GltfViewer
